import Mathlib

/-!
Shallow embedding of the conversation-and-retrieval client in `src/bedrock.py`
(repository `ai-test-app`).

Modelling conventions:
* Python strings become `String`; `dict.get` with possibly-missing keys becomes
  `Option String`; Python `x or ""` / `.get(k, "")` becomes `Option.getD "" `.
* Remote AWS calls are an explicit environment `AwsEnv` of pure functions: the
  embedding of a function that performs remote calls takes the environment as
  an argument.  A fallible remote call returns `Except PyErr _` where
  `PyErr = (exception type name, exception message)`.
* Python in-place mutation of the `message_history` list becomes explicit
  state passing: each chat function returns the final history together with
  either the produced output (plus the request it issued, kept for
  observability) or the propagated exception message.
* `functools.lru_cache(maxsize=2)` on the resolver becomes an explicit cache
  state threaded through `resolve_inference_profile_arn_cached`; the cached
  function body itself is the pure `resolve_inference_profile_arn`.  The
  resolver also returns the number of remote control-plane calls it performed
  (one for the listing plus one per detail fetch), so that cache-hit claims
  ("performs no remote listing call") are statable.
* Numeric inference parameters (`temperature`, `topP`) are carried as exact
  rationals: no arithmetic is ever performed on them, they are literal
  request fields.
-/

/-- Python substring test `needle in haystack`, as on `str`. -/
def substrOf (needle haystack : String) : Bool :=
  decide (needle.data <:+: haystack.data)

/-- Python f-string rendering of a value that may be `None`. -/
def pyStr (o : Option String) : String :=
  match o with
  | some s => s
  | none => "None"

/-- Message class from `bedrock.py` (`ChatMessage(role, text)`). -/
structure ChatMessage where
  role : String
  text : String
deriving DecidableEq, Repr

/-- Wire-format content block `{"text": ...}`. -/
structure WireContent where
  text : String
deriving DecidableEq, Repr

/-- Wire-format message `{"role": ..., "content": [{"text": ...}]}`. -/
structure WireMessage where
  role : String
  content : List WireContent
deriving DecidableEq, Repr

/-- `convert_chat_messages_to_converse_api` from `bedrock.py`. -/
def convert_chat_messages_to_converse_api (chat_messages : List ChatMessage) : List WireMessage :=
  chat_messages.map (fun m => { role := m.role, content := [{ text := m.text }] })

/-- Runtime configuration constants of `bedrock.py` (module-level, read once
from the process environment; field names follow the source constants).
`MAX_MESSAGES` is a natural number (the source default is `20`). -/
structure Config where
  PROFILE : String
  REGION : String
  KB_ID : String
  MODEL_ID : String
  INFERENCE_PROFILE_ARN : String
  MAX_MESSAGES : Nat
deriving DecidableEq, Repr

/-- A Python exception, abstracted to `(type(e).__name__, str(e))`. -/
abbrev PyErr := String × String

/-- Result of `sts.get_caller_identity()`: the `Account` and `Arn` keys may be
absent (`i.get(...)` in the source). -/
structure CallerIdentity where
  Account? : Option String
  Arn? : Option String
deriving DecidableEq, Repr

/-- One entry of `list_knowledge_bases()["knowledgeBaseSummaries"]`. -/
structure KbSummary where
  knowledgeBaseId : String
  name? : Option String
  status? : Option String
deriving DecidableEq, Repr

/-- One entry of `list_inference_profiles()["inferenceProfileSummaries"]`:
the `type` and `name` keys are read with `.get` and may be absent. -/
structure ProfileSummary where
  type? : Option String
  name? : Option String
  inferenceProfileArn : String
deriving DecidableEq, Repr

/-- One entry of an inference-profile detail's `models` list. -/
structure ProfileModel where
  modelArn? : Option String
deriving DecidableEq, Repr

/-- Result of `get_inference_profile(...)`. -/
structure ProfileDetail where
  models : List ProfileModel
  inferenceProfileArn : String
deriving DecidableEq, Repr

/-- The `converse` request built in `chat_with_model` (lines 94-98). -/
structure ConverseRequest where
  inferenceProfileArn : String
  messages : List WireMessage
  maxTokens : Nat
  temperature : ℚ
  topP : ℚ
  stopSequences : List String
deriving DecidableEq, Repr

/-- The `retrieve_and_generate` request built in `chat_with_kb`
(lines 130-155), flattened to its leaf fields. -/
structure RngRequest where
  inputText : String
  configType : String
  knowledgeBaseId : String
  modelArn : String
  overrideSearchType : String
  numberOfResults : Nat
  textPromptTemplate : String
  temperature : ℚ
  topP : ℚ
  maxTokens : Nat
deriving DecidableEq, Repr

/-- Outcome of the `retrieve_and_generate` call, as classified by the three
`except` clauses of `chat_with_kb`: success, `ResourceNotFoundException`,
`AccessDeniedException` (carrying `str(e)`), or any other exception. -/
inductive RngOutcome where
  | ok (text : String)
  | resourceNotFound
  | accessDenied (message : String)
  | otherError (e : PyErr)
deriving DecidableEq, Repr

/-- The ambient AWS service environment: one pure function or value per
remote call the source performs. -/
structure AwsEnv where
  listInferenceProfiles : List ProfileSummary
  getInferenceProfile : String → ProfileDetail
  converse : ConverseRequest → Except PyErr String
  retrieveAndGenerate : RngRequest → RngOutcome
  listKnowledgeBases : Except PyErr (List KbSummary)
  getCallerIdentity : Except PyErr CallerIdentity

/-- `_caller_identity_safe` from `bedrock.py` (lines 58-63): total, returns a
formatted identity on success and a parenthesised failure note otherwise. -/
def _caller_identity_safe (env : AwsEnv) : String :=
  match env.getCallerIdentity with
  | .ok i => "account=" ++ pyStr i.Account? ++ " arn=" ++ pyStr i.Arn?
  | .error e => "(caller identity lookup failed: " ++ e.1 ++ ": " ++ e.2 ++ ")"

/-- The first component of the sort key on line 76:
`p.get("type") != "SYSTEM_DEFINED"` (so `false` means system-defined,
which sorts first). -/
def isUserDefined (p : ProfileSummary) : Bool :=
  !(p.type? == some "SYSTEM_DEFINED")

/-- The second component of the sort key on line 76: `p.get("name", "")`. -/
def profileName (p : ProfileSummary) : String :=
  p.name?.getD ""

/-- The comparison used by `sorted(summaries, key=lambda p: (p.get("type") !=
"SYSTEM_DEFINED", p.get("name", "")))`: lexicographic on the pair
(user-defined flag, name), with `false < true` on the flag. -/
def profileSortLe (p q : ProfileSummary) : Bool :=
  (!(isUserDefined p) && isUserDefined q) ||
    (isUserDefined p == isUserDefined q && decide (profileName p ≤ profileName q))

/-- The candidate list after the stable sort on line 76. -/
def orderedProfiles (env : AwsEnv) : List ProfileSummary :=
  env.listInferenceProfiles.mergeSort profileSortLe

/-- Whether a candidate profile matches the logical model id: some associated
model's `modelArn` (defaulted to `""`) contains `model_id` as a substring
(lines 78-80). -/
def profileMatches (env : AwsEnv) (model_id : String) (p : ProfileSummary) : Bool :=
  (env.getInferenceProfile p.inferenceProfileArn).models.any
    (fun m => substrOf model_id (m.modelArn?.getD ""))

/-- The search loop of lines 77-81: scan candidates in order, fetch each
detail, and return the first detail whose models match; also count the number
of detail fetches performed. -/
def searchProfiles (env : AwsEnv) (model_id : String) :
    List ProfileSummary → Option String × Nat
  | [] => (none, 0)
  | p :: ps =>
    if profileMatches env model_id p then
      (some (env.getInferenceProfile p.inferenceProfileArn).inferenceProfileArn, 1)
    else
      ((searchProfiles env model_id ps).1, (searchProfiles env model_id ps).2 + 1)

/-- The `RuntimeError` message of line 82. -/
def noProfileMessage (cfg : Config) (model_id : String) : String :=
  "No inference profile contains '" ++ model_id ++ "' in " ++ cfg.REGION ++
    " (profile='" ++ (if cfg.PROFILE = "" then "instance-role" else cfg.PROFILE) ++ "')."

/-- `resolve_inference_profile_arn` from `bedrock.py` (lines 66-82), without
its `lru_cache` wrapper (see `resolve_inference_profile_arn_cached`).  Returns
the resolved ARN or the raised error message, together with the number of
remote control-plane calls performed (the listing plus the detail fetches;
`0` when the explicit override short-circuits the search). -/
def resolve_inference_profile_arn (cfg : Config) (env : AwsEnv) (model_id : String) :
    Except String String × Nat :=
  if cfg.INFERENCE_PROFILE_ARN ≠ "" then
    (Except.ok cfg.INFERENCE_PROFILE_ARN, 0)
  else
    let s := searchProfiles env model_id (orderedProfiles env)
    match s.1 with
    | some arn => (Except.ok arn, 1 + s.2)
    | none => (Except.error (noProfileMessage cfg model_id), 1 + s.2)

/-- Cache lookup for the `lru_cache` model: entries are most-recent-first. -/
def lruGet (entries : List (String × String)) (k : String) : Option String :=
  (entries.find? (fun e => e.1 == k)).map (fun e => e.2)

/-- Cache insertion for the `lru_cache(maxsize=2)` model: put the key at the
front and keep at most two entries. -/
def lruPut (entries : List (String × String)) (k v : String) : List (String × String) :=
  ((k, v) :: entries.filter (fun e => e.1 != k)).take 2

/-- The `@lru_cache(maxsize=2)` wrapper around
`resolve_inference_profile_arn`: a hit returns the cached value with no remote
calls (refreshing its recency, as `lru_cache` does); a miss runs the body, and
only a successful result is stored (Python's `lru_cache` does not cache a call
that raises). -/
def resolve_inference_profile_arn_cached (cfg : Config) (env : AwsEnv)
    (cache : List (String × String)) (model_id : String) :
    Except String String × List (String × String) × Nat :=
  match lruGet cache model_id with
  | some v => (Except.ok v, lruPut cache model_id v, 0)
  | none =>
    match resolve_inference_profile_arn cfg env model_id with
    | (Except.ok v, n) => (Except.ok v, lruPut cache model_id v, n)
    | (Except.error e, n) => (Except.error e, cache, n)

/-- The trim applied after the user-message append (lines 88-89 and 111-112):
`del message_history[0 : len - MAX_MESSAGES]` when the length exceeds the cap,
i.e. drop the oldest surplus messages. -/
def historyTrim (max_messages : Nat) (h : List ChatMessage) : List ChatMessage :=
  if h.length > max_messages then h.drop (h.length - max_messages) else h

/-- Append one message and apply the trim rule (lines 87-89 / 110-112). -/
def historyAppendTrim (max_messages : Nat) (h : List ChatMessage) (m : ChatMessage) :
    List ChatMessage :=
  historyTrim max_messages (h ++ [m])

/-- The `converse` request built on lines 94-98: the resolved inference
profile, the full converted history, and the fixed inference configuration. -/
def converseRequestOf (ip_arn : String) (history1 : List ChatMessage) : ConverseRequest :=
  { inferenceProfileArn := ip_arn
    messages := convert_chat_messages_to_converse_api history1
    maxTokens := 2000
    temperature := 0
    topP := 9/10
    stopSequences := [] }

/-- The text produced by the `try`/`except` of lines 93-102: the model reply
on success, a generic diagnostic (error category and message, identity,
region, profile) otherwise. -/
def converseOutput (cfg : Config) (env : AwsEnv) (req : ConverseRequest) : String :=
  match env.converse req with
  | .ok text => text
  | .error e =>
    "Error during converse: " ++ e.1 ++ ": " ++ e.2 ++
      "\n↳ identity: " ++ _caller_identity_safe env ++
      "\n↳ region=" ++ cfg.REGION ++ ", profile=" ++
      (if cfg.PROFILE = "" then "instance-role" else cfg.PROFILE)

/-- `chat_with_model` from `bedrock.py` (lines 85-105).  Returns the final
history (the source mutates its argument in place) and either the reply text
with the `converse` request that was issued, or the propagated resolver error
(the resolver call on line 91 is outside the `try` block). -/
def chat_with_model (cfg : Config) (env : AwsEnv)
    (message_history : List ChatMessage) (new_text : String) :
    List ChatMessage × Except String (String × ConverseRequest) :=
  let history1 := historyAppendTrim cfg.MAX_MESSAGES message_history (ChatMessage.mk "user" new_text)
  match (resolve_inference_profile_arn cfg env cfg.MODEL_ID).1 with
  | .error e => (history1, Except.error e)
  | .ok ip_arn =>
    let req := converseRequestOf ip_arn history1
    let output := converseOutput cfg env req
    (history1 ++ [ChatMessage.mk "assistant" output], Except.ok (output, req))

/-- The fixed instruction template of lines 116-124. -/
def kbPromptTemplate : String :=
  "You are a question answering agent.\n" ++
  "Use only the provided search results to answer the user's question.\n" ++
  "If results are insufficient, say you couldn't find an exact answer.\n" ++
  "Double-check user assertions against the results.\n" ++
  "Answer in the user's language.\n\n" ++
  "Search results (numbered):\n$search_results$\n\n" ++
  "$output_format_instructions$"

/-- The best-effort knowledge-base listing text of lines 160-167: its own
failure is downgraded to an inline note, and an empty listing is rendered
`(none)` (the Python `or "(none)"` on a falsy joined string). -/
def kbListText (env : AwsEnv) : String :=
  match env.listKnowledgeBases with
  | .ok lst =>
    let s := String.intercalate "\n"
      (lst.map (fun kb =>
        "- " ++ kb.knowledgeBaseId ++ " | " ++ kb.name?.getD "" ++ " | " ++ kb.status?.getD ""))
    if s = "" then "(none)" else s
  | .error e2 => "(KB list failed: " ++ e2.1 ++ ": " ++ e2.2 ++ ")"

/-- The diagnostic composed in the `ResourceNotFoundException` branch of
`chat_with_kb` (lines 158-176): the offending identifier, the region, the
best-effort identity lookup and the best-effort listing of alternatives. -/
def kbNotFoundOutput (cfg : Config) (env : AwsEnv) : String :=
  "⚠️ Knowledge Base not found.\n" ++
    "- Provided KB_ID: " ++ cfg.KB_ID ++
    "\n- Region: " ++ cfg.REGION ++
    "\n- " ++ _caller_identity_safe env ++
    "\n- KBs in this account/region:\n" ++ kbListText env ++
    "\n→ Replace KB_ID with a valid one in this account/region."

/-- The `retrieve_and_generate` request built on lines 130-155: the raw user
text, the configured knowledge base, the resolved inference profile, hybrid
retrieval with five results, the fixed prompt template and the fixed
generation parameters. -/
def rngRequestOf (cfg : Config) (ip_arn : String) (new_text : String) : RngRequest :=
  { inputText := new_text
    configType := "KNOWLEDGE_BASE"
    knowledgeBaseId := cfg.KB_ID
    modelArn := ip_arn
    overrideSearchType := "HYBRID"
    numberOfResults := 5
    textPromptTemplate := kbPromptTemplate
    temperature := 0
    topP := 7/10
    maxTokens := 1024 }

/-- The text produced by the `try`/`except` cascade of lines 129-187: the
generated answer on success, and one of the three diagnostics otherwise. -/
def rngOutput (cfg : Config) (env : AwsEnv) (req : RngRequest) : String :=
  match env.retrieveAndGenerate req with
  | .ok text => text
  | .resourceNotFound => kbNotFoundOutput cfg env
  | .accessDenied msg =>
    "AccessDenied: " ++ msg ++
      "\n→ Ensure caller has: bedrock-agent-runtime:RetrieveAndGenerate, " ++
      "bedrock-agent:GetKnowledgeBase, bedrock-agent:ListKnowledgeBases, " ++
      "and access to data sources (e.g., S3)."
  | .otherError e =>
    "Error during retrieve_and_generate: " ++ e.1 ++ ": " ++ e.2 ++
      "\n↳ identity: " ++ _caller_identity_safe env ++
      "\n↳ region=" ++ cfg.REGION ++ ", profile=" ++
      (if cfg.PROFILE = "" then "instance-role" else cfg.PROFILE)

/-- `chat_with_kb` from `bedrock.py` (lines 108-190).  Same shape as
`chat_with_model`; the four outcome classes of the `retrieve_and_generate`
call map to the success text or one of the three diagnostic strings, and the
resolver call on line 114 is again outside the `try` block. -/
def chat_with_kb (cfg : Config) (env : AwsEnv)
    (message_history : List ChatMessage) (new_text : String) :
    List ChatMessage × Except String (String × RngRequest) :=
  let history1 := historyAppendTrim cfg.MAX_MESSAGES message_history (ChatMessage.mk "user" new_text)
  match (resolve_inference_profile_arn cfg env cfg.MODEL_ID).1 with
  | .error e => (history1, Except.error e)
  | .ok ip_arn =>
    let req := rngRequestOf cfg ip_arn new_text
    let output := rngOutput cfg env req
    (history1 ++ [ChatMessage.mk "assistant" output], Except.ok (output, req))

/-! ## Concrete sample configurations and environments

Used by witness and counterexample theorems below.  `cfgOverride` pins an
explicit inference-profile ARN (so resolution short-circuits); `cfgSearch`
leaves the override empty.  The environments differ in how their remote calls
behave. -/

/-- Configuration with an explicit inference-profile override. -/
def cfgOverride : Config :=
  { PROFILE := ""
    REGION := "us-east-1"
    KB_ID := "KB1"
    MODEL_ID := "claude"
    INFERENCE_PROFILE_ARN := "arn-x"
    MAX_MESSAGES := 20 }

/-- Configuration with no override, history cap 20. -/
def cfgSearch : Config :=
  { cfgOverride with INFERENCE_PROFILE_ARN := "" }

/-- Configuration with an override and history cap 1. -/
def cfgCap1 : Config :=
  { cfgOverride with MAX_MESSAGES := 1 }

/-- Configuration with an override and history cap 0. -/
def cfgCap0 : Config :=
  { cfgOverride with MAX_MESSAGES := 0 }

/-- Configuration with no override and history cap 0. -/
def cfgCap0Search : Config :=
  { cfgOverride with INFERENCE_PROFILE_ARN := "", MAX_MESSAGES := 0 }

/-- Environment where every remote call succeeds; there are no inference
profiles to list, no knowledge bases, a fixed identity, and the model calls
return fixed texts. -/
def envHappy : AwsEnv :=
  { listInferenceProfiles := []
    getInferenceProfile := fun _ => { models := [], inferenceProfileArn := "" }
    converse := fun _ => .ok "HI"
    retrieveAndGenerate := fun _ => .ok "ANS"
    listKnowledgeBases := .ok []
    getCallerIdentity := .ok { Account? := some "123456789012", Arn? := some "arn:aws:iam::123456789012:user/dev" } }

/-- Environment where `retrieve_and_generate` reports the knowledge base as
missing, the knowledge-base listing itself fails, and identity lookup fails. -/
def envNotFound : AwsEnv :=
  { envHappy with
    retrieveAndGenerate := fun _ => .resourceNotFound
    listKnowledgeBases := .error ("ClientError", "list blew up")
    getCallerIdentity := .error ("NoCredentialsError", "Unable to locate credentials") }

/-- Environment whose identity lookup fails. -/
def envNoIdentity : AwsEnv :=
  { envHappy with
    getCallerIdentity := .error ("NoCredentialsError", "Unable to locate credentials") }

/-! ## Helper lemmas -/

theorem substrOf_self (n : String) : substrOf n n = true := by
  simp [substrOf]

theorem substrOf_appendRight {n x : String} (y : String)
    (h : substrOf n x = true) : substrOf n (x ++ y) = true := by
  simp only [substrOf, decide_eq_true_eq] at h ⊢
  rw [String.data_append]
  exact h.trans ⟨[], y.data, by simp⟩

theorem substrOf_appendLeft {n y : String} (x : String)
    (h : substrOf n y = true) : substrOf n (x ++ y) = true := by
  simp only [substrOf, decide_eq_true_eq] at h ⊢
  rw [String.data_append]
  exact h.trans ⟨x.data, [], by simp⟩

theorem substrOf_suffix (x n : String) : substrOf n (x ++ n) = true :=
  substrOf_appendLeft x (substrOf_self n)

theorem append_ne_empty_right (x : String) {y : String} (hy : y ≠ "") :
    x ++ y ≠ "" := by
  intro h
  apply hy
  have hd := congrArg String.data h
  rw [String.data_append] at hd
  exact String.ext (List.append_eq_nil.mp hd).2

theorem searchProfiles_none_iff (env : AwsEnv) (mid : String) (l : List ProfileSummary) :
    (searchProfiles env mid l).1 = none ↔ ∀ p ∈ l, profileMatches env mid p = false := by
  induction l with
  | nil => simp [searchProfiles]
  | cons p ps ih =>
    by_cases hp : profileMatches env mid p
    · simp [searchProfiles, hp]
    · simp only [searchProfiles, hp, if_false, List.mem_cons]
      constructor
      · intro h q hq
        rcases hq with rfl | hq
        · exact Bool.eq_false_iff.mpr hp
        · exact (ih.mp h) q hq
      · intro h
        exact ih.mpr (fun q hq => h q (Or.inr hq))

theorem searchProfiles_some (env : AwsEnv) (mid : String) (l : List ProfileSummary)
    (arn : String) (h : (searchProfiles env mid l).1 = some arn) :
    ∃ pre p suf, l = pre ++ p :: suf ∧ profileMatches env mid p = true ∧
      arn = (env.getInferenceProfile p.inferenceProfileArn).inferenceProfileArn ∧
      ∀ q ∈ pre, profileMatches env mid q = false := by
  induction l with
  | nil => simp [searchProfiles] at h
  | cons p ps ih =>
    by_cases hp : profileMatches env mid p
    · refine ⟨[], p, ps, by simp, hp, ?_, by simp⟩
      simp only [searchProfiles, hp, if_true, Option.some.injEq] at h
      exact h.symm
    · simp only [searchProfiles, hp, if_false] at h
      obtain ⟨pre, q, suf, hl, hq, ha, hpre⟩ := ih h
      refine ⟨p :: pre, q, suf, by rw [hl]; rfl, hq, ha, ?_⟩
      intro r hr
      rcases List.mem_cons.mp hr with rfl | hr
      · exact Bool.eq_false_iff.mpr hp
      · exact hpre r hr

/-- The sort comparison, read as the specification phrases it: a
system-provided candidate comes before a user-defined one, and within the same
group names are in lexicographic order. -/
def profileOrderedBefore (p q : ProfileSummary) : Prop :=
  (isUserDefined p = false ∧ isUserDefined q = true) ∨
    (isUserDefined p = isUserDefined q ∧ profileName p ≤ profileName q)

theorem profileSortLe_iff (p q : ProfileSummary) :
    profileSortLe p q = true ↔ profileOrderedBefore p q := by
  simp only [profileSortLe, profileOrderedBefore, Bool.or_eq_true, Bool.and_eq_true,
    Bool.not_eq_true', beq_iff_eq, decide_eq_true_eq]

theorem profileSortLe_trans (a b c : ProfileSummary)
    (hab : profileSortLe a b = true) (hbc : profileSortLe b c = true) :
    profileSortLe a c = true := by
  rw [profileSortLe_iff] at hab hbc ⊢
  rcases hab with ⟨ha, hb⟩ | ⟨heq, hn⟩ <;> rcases hbc with ⟨hb2, hc⟩ | ⟨heq2, hn2⟩
  · exact absurd (hb2.symm.trans hb) Bool.false_ne_true
  · exact Or.inl ⟨ha, heq2 ▸ hb⟩
  · exact Or.inl ⟨heq.trans hb2, hc⟩
  · exact Or.inr ⟨heq.trans heq2, le_trans hn hn2⟩

theorem profileSortLe_total (a b : ProfileSummary) :
    (profileSortLe a b || profileSortLe b a) = true := by
  rw [Bool.or_eq_true, profileSortLe_iff, profileSortLe_iff]
  cases ha : isUserDefined a <;> cases hb : isUserDefined b
  · rcases le_total (profileName a) (profileName b) with h | h
    · exact Or.inl (Or.inr ⟨ha.trans hb.symm, h⟩)
    · exact Or.inr (Or.inr ⟨hb.trans ha.symm, h⟩)
  · exact Or.inl (Or.inl ⟨ha, hb⟩)
  · exact Or.inr (Or.inl ⟨hb, ha⟩)
  · rcases le_total (profileName a) (profileName b) with h | h
    · exact Or.inl (Or.inr ⟨ha.trans hb.symm, h⟩)
    · exact Or.inr (Or.inr ⟨hb.trans ha.symm, h⟩)

theorem lruGet_lruPut (c : List (String × String)) (k v : String) :
    lruGet (lruPut c k v) k = some v := by
  simp [lruGet, lruPut, List.find?]

theorem historyTrim_of_le {M : Nat} {h : List ChatMessage} (hle : h.length ≤ M) :
    historyTrim M h = h := by
  simp [historyTrim, Nat.not_lt.mpr hle]

theorem historyTrim_of_gt {M : Nat} {h : List ChatMessage} (hgt : h.length > M) :
    (historyTrim M h).length = M ∧ historyTrim M h <:+ h := by
  constructor
  · simp only [historyTrim, hgt, if_true, List.length_drop]
    omega
  · simp only [historyTrim, hgt, if_true]
    exact List.drop_suffix _ _

theorem historyAppendTrim_length_le (M : Nat) (h : List ChatMessage) (m : ChatMessage) :
    (historyAppendTrim M h m).length ≤ M := by
  unfold historyAppendTrim historyTrim
  by_cases hc : (h ++ [m]).length > M
  · simp only [hc, if_true, List.length_drop]
    omega
  · simp only [hc, if_false]
    omega

theorem chat_with_model_ok (cfg : Config) (env : AwsEnv)
    (history : List ChatMessage) (new_text : String) (arn : String)
    (hres : (resolve_inference_profile_arn cfg env cfg.MODEL_ID).1 = Except.ok arn) :
    chat_with_model cfg env history new_text =
      (historyAppendTrim cfg.MAX_MESSAGES history (ChatMessage.mk "user" new_text) ++
        [ChatMessage.mk "assistant" (converseOutput cfg env (converseRequestOf arn
          (historyAppendTrim cfg.MAX_MESSAGES history (ChatMessage.mk "user" new_text))))],
       Except.ok (converseOutput cfg env (converseRequestOf arn
          (historyAppendTrim cfg.MAX_MESSAGES history (ChatMessage.mk "user" new_text))),
         converseRequestOf arn
          (historyAppendTrim cfg.MAX_MESSAGES history (ChatMessage.mk "user" new_text)))) := by
  unfold chat_with_model
  rw [hres]

theorem chat_with_model_error (cfg : Config) (env : AwsEnv)
    (history : List ChatMessage) (new_text : String) (e : String)
    (hres : (resolve_inference_profile_arn cfg env cfg.MODEL_ID).1 = Except.error e) :
    chat_with_model cfg env history new_text =
      (historyAppendTrim cfg.MAX_MESSAGES history (ChatMessage.mk "user" new_text),
       Except.error e) := by
  unfold chat_with_model
  rw [hres]

theorem chat_with_kb_ok (cfg : Config) (env : AwsEnv)
    (history : List ChatMessage) (new_text : String) (arn : String)
    (hres : (resolve_inference_profile_arn cfg env cfg.MODEL_ID).1 = Except.ok arn) :
    chat_with_kb cfg env history new_text =
      (historyAppendTrim cfg.MAX_MESSAGES history (ChatMessage.mk "user" new_text) ++
        [ChatMessage.mk "assistant" (rngOutput cfg env (rngRequestOf cfg arn new_text))],
       Except.ok (rngOutput cfg env (rngRequestOf cfg arn new_text),
         rngRequestOf cfg arn new_text)) := by
  unfold chat_with_kb
  rw [hres]

theorem chat_with_kb_error (cfg : Config) (env : AwsEnv)
    (history : List ChatMessage) (new_text : String) (e : String)
    (hres : (resolve_inference_profile_arn cfg env cfg.MODEL_ID).1 = Except.error e) :
    chat_with_kb cfg env history new_text =
      (historyAppendTrim cfg.MAX_MESSAGES history (ChatMessage.mk "user" new_text),
       Except.error e) := by
  unfold chat_with_kb
  rw [hres]

theorem resolve_calls_pos (cfg : Config) (env : AwsEnv) (model_id : String)
    (hov : cfg.INFERENCE_PROFILE_ARN = "") :
    1 ≤ (resolve_inference_profile_arn cfg env model_id).2 := by
  simp only [resolve_inference_profile_arn, hov, ne_eq, not_true_eq_false, if_false]
  split <;> omega

/-! ## Claim theorems -/

/-- C6: the identity probe `_caller_identity_safe` never raises (it is a total
function into `String` in this embedding): on success it returns the formatted
account and principal identifier, and on any failure of the identity-lookup
call it returns a string stating that the lookup itself failed, containing the
error's category (type name) and message. -/
theorem C6_identity_probe_total (env : AwsEnv) :
    (∀ i, env.getCallerIdentity = Except.ok i →
      _caller_identity_safe env = "account=" ++ pyStr i.Account? ++ " arn=" ++ pyStr i.Arn?) ∧
    (∀ e : PyErr, env.getCallerIdentity = Except.error e →
      substrOf "caller identity lookup failed" (_caller_identity_safe env) = true ∧
      substrOf e.1 (_caller_identity_safe env) = true ∧
      substrOf e.2 (_caller_identity_safe env) = true) := by
  constructor
  · intro i hi
    simp [_caller_identity_safe, hi]
  · intro e he
    unfold _caller_identity_safe
    rw [he]
    refine ⟨?_, ?_, ?_⟩
    · apply substrOf_appendRight
      apply substrOf_appendRight
      apply substrOf_appendRight
      apply substrOf_appendRight
      decide
    · apply substrOf_appendRight
      apply substrOf_appendRight
      apply substrOf_appendRight
      exact substrOf_suffix _ _
    · apply substrOf_appendRight
      exact substrOf_suffix _ _

/-- C6 witness: the probe at a concrete failing environment. -/
theorem C6_identity_probe_total_witness :
    substrOf "caller identity lookup failed" (_caller_identity_safe envNoIdentity) = true ∧
    substrOf "NoCredentialsError" (_caller_identity_safe envNoIdentity) = true ∧
    substrOf "Unable to locate credentials" (_caller_identity_safe envNoIdentity) = true :=
  (C6_identity_probe_total envNoIdentity).2
    ("NoCredentialsError", "Unable to locate credentials") rfl

/-- C7: with an explicit inference-target override configured, the resolver
returns the override immediately for every logical model id, performing no
remote listing or detail calls, and never validates the override against the
model id (the result does not depend on `model_id` or on the environment). -/
theorem C7_override_bypasses_search (cfg : Config) (env : AwsEnv) (model_id : String)
    (hov : cfg.INFERENCE_PROFILE_ARN ≠ "") :
    resolve_inference_profile_arn cfg env model_id =
      (Except.ok cfg.INFERENCE_PROFILE_ARN, 0) := by
  simp [resolve_inference_profile_arn, hov]

/-- C7 witness: the override configuration at an unrelated model id. -/
theorem C7_override_bypasses_search_witness :
    resolve_inference_profile_arn cfgOverride envHappy "some-unrelated-model" =
      (Except.ok "arn-x", 0) :=
  C7_override_bypasses_search cfgOverride envHappy "some-unrelated-model" (by decide)

/-- C5: a call to the cached resolver that succeeds leaves the result in the
cache, so an immediately following call with the same logical model id returns
the identical target reference and performs zero remote calls. -/
theorem C5_resolver_memoized (cfg : Config) (env : AwsEnv)
    (cache cache' : List (String × String)) (model_id arn : String) (n : Nat)
    (h1 : resolve_inference_profile_arn_cached cfg env cache model_id =
      (Except.ok arn, cache', n)) :
    resolve_inference_profile_arn_cached cfg env cache' model_id =
      (Except.ok arn, lruPut cache' model_id arn, 0) := by
  have hget : lruGet cache' model_id = some arn := by
    unfold resolve_inference_profile_arn_cached at h1
    cases hg : lruGet cache model_id with
    | some v =>
      rw [hg] at h1
      simp only [Prod.mk.injEq, Except.ok.injEq] at h1
      obtain ⟨rfl, hcache, -⟩ := h1
      rw [← hcache]
      exact lruGet_lruPut _ _ _
    | none =>
      rw [hg] at h1
      rcases hr : resolve_inference_profile_arn cfg env model_id with ⟨r, m⟩
      rw [hr] at h1
      cases r with
      | ok v =>
        simp only [Prod.mk.injEq, Except.ok.injEq] at h1
        obtain ⟨rfl, hcache, -⟩ := h1
        rw [← hcache]
        exact lruGet_lruPut _ _ _
      | error e => simp at h1
  unfold resolve_inference_profile_arn_cached
  rw [hget]

/-- C5 witness: a concrete cache state produced by a first successful call. -/
theorem C5_resolver_memoized_witness :
    resolve_inference_profile_arn_cached cfgOverride envHappy [("m", "arn-x")] "m" =
      (Except.ok "arn-x", lruPut [("m", "arn-x")] "m" "arn-x", 0) :=
  C5_resolver_memoized cfgOverride envHappy [] [("m", "arn-x")] "m" "arn-x" 0 rfl

/-- C10: the cached resolver memoizes only successes: a call that fails (no
matching profile, no override) leaves the cache unchanged, and a subsequent
call with the same logical model id re-runs the remote listing (at least one
remote call again) instead of replaying a cached failure. -/
theorem C10_failures_not_cached (cfg : Config) (env : AwsEnv)
    (cache : List (String × String)) (model_id e : String)
    (cache' : List (String × String)) (n : Nat)
    (hov : cfg.INFERENCE_PROFILE_ARN = "")
    (hmiss : lruGet cache model_id = none)
    (h1 : resolve_inference_profile_arn_cached cfg env cache model_id =
      (Except.error e, cache', n)) :
    cache' = cache ∧ 1 ≤ n ∧
      resolve_inference_profile_arn_cached cfg env cache' model_id =
        (Except.error e, cache, n) := by
  have hpos := resolve_calls_pos cfg env model_id hov
  unfold resolve_inference_profile_arn_cached at h1
  rw [hmiss] at h1
  rcases hr : resolve_inference_profile_arn cfg env model_id with ⟨r, m⟩
  rw [hr] at h1
  cases r with
  | ok v => simp at h1
  | error e2 =>
    simp only [Prod.mk.injEq, Except.error.injEq] at h1
    obtain ⟨rfl, rfl, rfl⟩ := h1
    rw [hr] at hpos
    refine ⟨rfl, hpos, ?_⟩
    unfold resolve_inference_profile_arn_cached
    rw [hmiss, hr]

/-- C10 witness: a concrete failing resolution with an empty cache. -/
theorem C10_failures_not_cached_witness :
    ([] : List (String × String)) = [] ∧ 1 ≤ 1 ∧
      resolve_inference_profile_arn_cached cfgSearch envHappy [] "claude" =
        (Except.error (noProfileMessage cfgSearch "claude"), [], 1) :=
  C10_failures_not_cached cfgSearch envHappy [] "claude"
    (noProfileMessage cfgSearch "claude") [] 1 rfl rfl
    (by simp [resolve_inference_profile_arn_cached, resolve_inference_profile_arn,
      lruGet, orderedProfiles, searchProfiles, envHappy, cfgSearch, cfgOverride,
      List.mergeSort_nil])

theorem historyAppendTrim_zero (h : List ChatMessage) (m : ChatMessage) :
    historyAppendTrim 0 h m = [] := by
  unfold historyAppendTrim historyTrim
  have hl : (h ++ [m]).length > 0 := by simp
  rw [if_pos hl, Nat.sub_zero, List.drop_length]

/-- C1 (amended): when inference-target resolution succeeds, each orchestrator
call appends exactly one new user message (then applies the trim) and exactly
one new assistant message, and no exception propagates to the caller; when
resolution fails, the user message is still appended (and trimmed) but no
assistant message is appended and the resolution error propagates. -/
theorem C1_turn_completeness (cfg : Config) (env : AwsEnv)
    (history : List ChatMessage) (new_text : String) :
    (∀ arn, (resolve_inference_profile_arn cfg env cfg.MODEL_ID).1 = Except.ok arn →
      (∃ out req, chat_with_kb cfg env history new_text =
        (historyAppendTrim cfg.MAX_MESSAGES history (ChatMessage.mk "user" new_text) ++
          [ChatMessage.mk "assistant" out], Except.ok (out, req))) ∧
      (∃ out req, chat_with_model cfg env history new_text =
        (historyAppendTrim cfg.MAX_MESSAGES history (ChatMessage.mk "user" new_text) ++
          [ChatMessage.mk "assistant" out], Except.ok (out, req)))) ∧
    (∀ e, (resolve_inference_profile_arn cfg env cfg.MODEL_ID).1 = Except.error e →
      chat_with_kb cfg env history new_text =
        (historyAppendTrim cfg.MAX_MESSAGES history (ChatMessage.mk "user" new_text),
         Except.error e) ∧
      chat_with_model cfg env history new_text =
        (historyAppendTrim cfg.MAX_MESSAGES history (ChatMessage.mk "user" new_text),
         Except.error e)) := by
  constructor
  · intro arn hres
    exact ⟨⟨_, _, chat_with_kb_ok cfg env history new_text arn hres⟩,
           ⟨_, _, chat_with_model_ok cfg env history new_text arn hres⟩⟩
  · intro e hres
    exact ⟨chat_with_kb_error cfg env history new_text e hres,
           chat_with_model_error cfg env history new_text e hres⟩

/-- C1 counterexample: with no override configured and no inference profiles
available, a `chat_with_kb` call appends the user message but no assistant
message, and the resolution error propagates to the caller as an exception —
contradicting the claim that a diagnostic assistant message is still appended
and that no exception propagates. -/
theorem C1_counterexample :
    (chat_with_kb cfgSearch envHappy [] "q").1 = [ChatMessage.mk "user" "q"] ∧
    (chat_with_kb cfgSearch envHappy [] "q").2 =
      Except.error (noProfileMessage cfgSearch "claude") := by
  have hres : (resolve_inference_profile_arn cfgSearch envHappy cfgSearch.MODEL_ID).1 =
      Except.error (noProfileMessage cfgSearch "claude") := by
    simp [resolve_inference_profile_arn, orderedProfiles, searchProfiles, envHappy,
      cfgSearch, cfgOverride, List.mergeSort_nil]
  rw [chat_with_kb_error cfgSearch envHappy [] "q" _ hres]
  exact ⟨rfl, rfl⟩

/-- C1 witness: a successful call at a concrete override configuration. -/
theorem C1_turn_completeness_witness :
    ∃ out req, chat_with_model cfgOverride envHappy [] "q" =
      (historyAppendTrim cfgOverride.MAX_MESSAGES [] (ChatMessage.mk "user" "q") ++
        [ChatMessage.mk "assistant" out], Except.ok (out, req)) :=
  ((C1_turn_completeness cfgOverride envHappy [] "q").1 "arn-x" rfl).2

/-- C2 (amended): when the user-message append pushes the history length above
the cap, the trim leaves exactly the cap many messages and they form a suffix
of the pre-trim list (the last messages, oldest discarded first, order
preserved); the assistant append that follows is not trimmed, so after an
orchestrator call the history length is bounded by the cap plus one — not by
the cap. -/
theorem C2_trim_invariant (cfg : Config) (env : AwsEnv)
    (history : List ChatMessage) (new_text : String) :
    (∀ (M : Nat) (l : List ChatMessage), l.length > M →
      (historyTrim M l).length = M ∧ historyTrim M l <:+ l) ∧
    (chat_with_kb cfg env history new_text).1.length ≤ cfg.MAX_MESSAGES + 1 ∧
    (chat_with_model cfg env history new_text).1.length ≤ cfg.MAX_MESSAGES + 1 := by
  have hb := historyAppendTrim_length_le cfg.MAX_MESSAGES history (ChatMessage.mk "user" new_text)
  refine ⟨fun M l hl => historyTrim_of_gt hl, ?_, ?_⟩
  · cases hres : (resolve_inference_profile_arn cfg env cfg.MODEL_ID).1 with
    | error e =>
      rw [chat_with_kb_error cfg env history new_text e hres]
      exact le_trans hb (Nat.le_succ _)
    | ok arn =>
      rw [chat_with_kb_ok cfg env history new_text arn hres]
      simp only [List.length_append, List.length_cons, List.length_nil]
      omega
  · cases hres : (resolve_inference_profile_arn cfg env cfg.MODEL_ID).1 with
    | error e =>
      rw [chat_with_model_error cfg env history new_text e hres]
      exact le_trans hb (Nat.le_succ _)
    | ok arn =>
      rw [chat_with_model_ok cfg env history new_text arn hres]
      simp only [List.length_append, List.length_cons, List.length_nil]
      omega

/-- C2 counterexample: with the cap configured to 1, one successful call on an
empty history leaves 2 messages — the history length exceeds the configured
maximum after the operation, because the assistant append is not followed by a
trim. -/
theorem C2_counterexample :
    cfgCap1.MAX_MESSAGES = 1 ∧
    (chat_with_model cfgCap1 envHappy [] "hi").1.length = 2 :=
  ⟨rfl, rfl⟩

/-- C2 witness: the trim at a concrete over-full history, and the cap-plus-one
bound at a concrete call. -/
theorem C2_trim_invariant_witness :
    ((historyTrim 1 [ChatMessage.mk "user" "a", ChatMessage.mk "user" "b"]).length = 1 ∧
      historyTrim 1 [ChatMessage.mk "user" "a", ChatMessage.mk "user" "b"] <:+
        [ChatMessage.mk "user" "a", ChatMessage.mk "user" "b"]) ∧
    (chat_with_kb cfgOverride envHappy [] "u").1.length ≤ 21 :=
  ⟨(C2_trim_invariant cfgOverride envHappy [] "u").1 1
      [ChatMessage.mk "user" "a", ChatMessage.mk "user" "b"] (by decide),
    (C2_trim_invariant cfgOverride envHappy [] "u").2.1⟩

/-- C9 (amended): with the history cap configured to 0, the trim after the
user append always empties the history, so a call that completes normally
leaves exactly one assistant message (an assistant reply with no preceding
user turn, a net gain of one assistant message); a call that fails resolution
leaves the history empty. -/
theorem C9_cap_zero (cfg : Config) (env : AwsEnv)
    (history : List ChatMessage) (new_text : String) (hM : cfg.MAX_MESSAGES = 0) :
    (∀ out req, (chat_with_model cfg env history new_text).2 = Except.ok (out, req) →
      (chat_with_model cfg env history new_text).1 = [ChatMessage.mk "assistant" out]) ∧
    (∀ e, (chat_with_model cfg env history new_text).2 = Except.error e →
      (chat_with_model cfg env history new_text).1 = []) ∧
    (∀ out req, (chat_with_kb cfg env history new_text).2 = Except.ok (out, req) →
      (chat_with_kb cfg env history new_text).1 = [ChatMessage.mk "assistant" out]) ∧
    (∀ e, (chat_with_kb cfg env history new_text).2 = Except.error e →
      (chat_with_kb cfg env history new_text).1 = []) := by
  have hz : historyAppendTrim cfg.MAX_MESSAGES history (ChatMessage.mk "user" new_text) = [] := by
    rw [hM]
    exact historyAppendTrim_zero _ _
  refine ⟨?_, ?_, ?_, ?_⟩
  · intro out req h2
    cases hres : (resolve_inference_profile_arn cfg env cfg.MODEL_ID).1 with
    | error e =>
      rw [chat_with_model_error cfg env history new_text e hres] at h2
      simp at h2
    | ok arn =>
      rw [chat_with_model_ok cfg env history new_text arn hres] at h2 ⊢
      rw [hz] at h2 ⊢
      simp only [Except.ok.injEq, Prod.mk.injEq] at h2
      simp [h2.1]
  · intro e h2
    cases hres : (resolve_inference_profile_arn cfg env cfg.MODEL_ID).1 with
    | error e2 =>
      rw [chat_with_model_error cfg env history new_text e2 hres]
      exact hz
    | ok arn =>
      rw [chat_with_model_ok cfg env history new_text arn hres] at h2
      simp at h2
  · intro out req h2
    cases hres : (resolve_inference_profile_arn cfg env cfg.MODEL_ID).1 with
    | error e =>
      rw [chat_with_kb_error cfg env history new_text e hres] at h2
      simp at h2
    | ok arn =>
      rw [chat_with_kb_ok cfg env history new_text arn hres] at h2 ⊢
      rw [hz] at h2 ⊢
      simp only [Except.ok.injEq, Prod.mk.injEq] at h2
      simp [h2.1]
  · intro e h2
    cases hres : (resolve_inference_profile_arn cfg env cfg.MODEL_ID).1 with
    | error e2 =>
      rw [chat_with_kb_error cfg env history new_text e2 hres]
      exact hz
    | ok arn =>
      rw [chat_with_kb_ok cfg env history new_text arn hres] at h2
      simp at h2

/-- C9 counterexample: with cap 0 and a failing resolution, the call leaves an
empty transcript and raises — there is no assistant reply at all, so it is not
the case that every call appends a net of exactly one assistant message. -/
theorem C9_counterexample :
    (chat_with_model cfgCap0Search envHappy [] "q").1 = [] ∧
    (chat_with_model cfgCap0Search envHappy [] "q").2 =
      Except.error (noProfileMessage cfgCap0Search "claude") := by
  have hres : (resolve_inference_profile_arn cfgCap0Search envHappy cfgCap0Search.MODEL_ID).1 =
      Except.error (noProfileMessage cfgCap0Search "claude") := by
    simp [resolve_inference_profile_arn, orderedProfiles, searchProfiles, envHappy,
      cfgCap0Search, cfgOverride, List.mergeSort_nil]
  rw [chat_with_model_error cfgCap0Search envHappy [] "q" _ hres]
  constructor
  · rw [show cfgCap0Search.MAX_MESSAGES = 0 from rfl]
    show historyAppendTrim 0 [] (ChatMessage.mk "user" "q") = []
    exact historyAppendTrim_zero [] (ChatMessage.mk "user" "q")
  · rfl

/-- C9 witness: a concrete successful call with cap 0 leaves exactly one
assistant reply. -/
theorem C9_cap_zero_witness :
    (chat_with_model cfgCap0 envHappy [] "q").1 = [ChatMessage.mk "assistant" "HI"] :=
  (C9_cap_zero cfgCap0 envHappy [] "q" rfl).1 "HI" (converseRequestOf "arn-x" []) rfl

theorem resolve_no_override (cfg : Config) (env : AwsEnv) (model_id : String)
    (hov : cfg.INFERENCE_PROFILE_ARN = "") :
    (resolve_inference_profile_arn cfg env model_id).1 =
      match (searchProfiles env model_id (orderedProfiles env)).1 with
      | some arn => Except.ok arn
      | none => Except.error (noProfileMessage cfg model_id) := by
  simp only [resolve_inference_profile_arn, hov, ne_eq, not_true_eq_false, if_false]
  cases (searchProfiles env model_id (orderedProfiles env)).1 <;> rfl

/-- C4: when the knowledge base is reported missing (resource-not-found), the
assistant text appended and returned by `chat_with_kb` contains the configured
knowledge-base identifier and the region, and is non-empty — for every
environment, including those where the alternatives listing or the identity
lookup themselves fail. -/
theorem C4_notfound_diagnostic (cfg : Config) (env : AwsEnv)
    (history : List ChatMessage) (new_text : String) (arn : String)
    (hres : (resolve_inference_profile_arn cfg env cfg.MODEL_ID).1 = Except.ok arn)
    (hrng : ∀ r, env.retrieveAndGenerate r = RngOutcome.resourceNotFound) :
    ∃ req, chat_with_kb cfg env history new_text =
      (historyAppendTrim cfg.MAX_MESSAGES history (ChatMessage.mk "user" new_text) ++
        [ChatMessage.mk "assistant" (kbNotFoundOutput cfg env)],
       Except.ok (kbNotFoundOutput cfg env, req)) ∧
    substrOf cfg.KB_ID (kbNotFoundOutput cfg env) = true ∧
    substrOf cfg.REGION (kbNotFoundOutput cfg env) = true ∧
    kbNotFoundOutput cfg env ≠ "" := by
  have houtput : rngOutput cfg env (rngRequestOf cfg arn new_text) = kbNotFoundOutput cfg env := by
    unfold rngOutput
    rw [hrng]
  refine ⟨rngRequestOf cfg arn new_text, ?_, ?_, ?_, ?_⟩
  · rw [chat_with_kb_ok cfg env history new_text arn hres, houtput]
  · unfold kbNotFoundOutput
    apply substrOf_appendRight
    apply substrOf_appendRight
    apply substrOf_appendRight
    apply substrOf_appendRight
    apply substrOf_appendRight
    apply substrOf_appendRight
    apply substrOf_appendRight
    exact substrOf_suffix _ _
  · unfold kbNotFoundOutput
    apply substrOf_appendRight
    apply substrOf_appendRight
    apply substrOf_appendRight
    apply substrOf_appendRight
    apply substrOf_appendRight
    exact substrOf_suffix _ _
  · unfold kbNotFoundOutput
    exact append_ne_empty_right _ (by decide)

/-- C4 witness: a concrete run where the knowledge base is missing and both
the alternatives listing and the identity lookup fail. -/
theorem C4_notfound_diagnostic_witness :
    ∃ req, chat_with_kb cfgOverride envNotFound [] "q" =
      (historyAppendTrim cfgOverride.MAX_MESSAGES [] (ChatMessage.mk "user" "q") ++
        [ChatMessage.mk "assistant" (kbNotFoundOutput cfgOverride envNotFound)],
       Except.ok (kbNotFoundOutput cfgOverride envNotFound, req)) ∧
    substrOf cfgOverride.KB_ID (kbNotFoundOutput cfgOverride envNotFound) = true ∧
    substrOf cfgOverride.REGION (kbNotFoundOutput cfgOverride envNotFound) = true ∧
    kbNotFoundOutput cfgOverride envNotFound ≠ "" :=
  C4_notfound_diagnostic cfgOverride envNotFound [] "q" "arn-x" rfl (fun _ => rfl)

/-- C8: the retrieve-and-generate request issued by `chat_with_kb` uses hybrid
retrieval with a result count of 5, temperature 0, top_p 0.7 and 1024 max
output tokens; the direct completion request issued by `chat_with_model` uses
2000 max output tokens, temperature 0, top_p 0.9, and carries the full
ordered post-trim message history (the final history minus the appended
assistant reply) as its prompt context. -/
theorem C8_request_parameters :
    (∀ (cfg : Config) (env : AwsEnv) (history : List ChatMessage) (new_text : String)
        (hist : List ChatMessage) (out : String) (req : RngRequest),
      chat_with_kb cfg env history new_text = (hist, Except.ok (out, req)) →
      req.overrideSearchType = "HYBRID" ∧ req.numberOfResults = 5 ∧
        req.temperature = 0 ∧ req.topP = 7/10 ∧ req.maxTokens = 1024) ∧
    (∀ (cfg : Config) (env : AwsEnv) (history : List ChatMessage) (new_text : String)
        (hist : List ChatMessage) (out : String) (req : ConverseRequest),
      chat_with_model cfg env history new_text = (hist, Except.ok (out, req)) →
      req.maxTokens = 2000 ∧ req.temperature = 0 ∧ req.topP = 9/10 ∧
        req.messages = convert_chat_messages_to_converse_api hist.dropLast) := by
  constructor
  · intro cfg env history new_text hist out req heq
    cases hres : (resolve_inference_profile_arn cfg env cfg.MODEL_ID).1 with
    | error e =>
      rw [chat_with_kb_error cfg env history new_text e hres] at heq
      simp at heq
    | ok arn =>
      rw [chat_with_kb_ok cfg env history new_text arn hres] at heq
      simp only [Prod.mk.injEq, Except.ok.injEq] at heq
      obtain ⟨-, -, hreq⟩ := heq
      rw [← hreq]
      exact ⟨rfl, rfl, rfl, rfl, rfl⟩
  · intro cfg env history new_text hist out req heq
    cases hres : (resolve_inference_profile_arn cfg env cfg.MODEL_ID).1 with
    | error e =>
      rw [chat_with_model_error cfg env history new_text e hres] at heq
      simp at heq
    | ok arn =>
      rw [chat_with_model_ok cfg env history new_text arn hres] at heq
      simp only [Prod.mk.injEq, Except.ok.injEq] at heq
      obtain ⟨hhist, -, hreq⟩ := heq
      rw [← hreq]
      refine ⟨rfl, rfl, rfl, ?_⟩
      rw [← hhist, List.dropLast_concat]
      rfl

/-- C8 witness: both request shapes at a concrete successful run. -/
theorem C8_request_parameters_witness :
    ((rngRequestOf cfgOverride "arn-x" "u").overrideSearchType = "HYBRID" ∧
      (rngRequestOf cfgOverride "arn-x" "u").numberOfResults = 5 ∧
      (rngRequestOf cfgOverride "arn-x" "u").temperature = 0 ∧
      (rngRequestOf cfgOverride "arn-x" "u").topP = 7/10 ∧
      (rngRequestOf cfgOverride "arn-x" "u").maxTokens = 1024) ∧
    ((converseRequestOf "arn-x" [ChatMessage.mk "user" "u"]).maxTokens = 2000 ∧
      (converseRequestOf "arn-x" [ChatMessage.mk "user" "u"]).temperature = 0 ∧
      (converseRequestOf "arn-x" [ChatMessage.mk "user" "u"]).topP = 9/10 ∧
      (converseRequestOf "arn-x" [ChatMessage.mk "user" "u"]).messages =
        convert_chat_messages_to_converse_api
          ([ChatMessage.mk "user" "u",
            ChatMessage.mk "assistant" (converseOutput cfgOverride envHappy
              (converseRequestOf "arn-x" [ChatMessage.mk "user" "u"]))].dropLast)) :=
  ⟨C8_request_parameters.1 cfgOverride envHappy [] "u"
      [ChatMessage.mk "user" "u",
        ChatMessage.mk "assistant" (rngOutput cfgOverride envHappy
          (rngRequestOf cfgOverride "arn-x" "u"))]
      (rngOutput cfgOverride envHappy (rngRequestOf cfgOverride "arn-x" "u"))
      (rngRequestOf cfgOverride "arn-x" "u") rfl,
    C8_request_parameters.2 cfgOverride envHappy [] "u"
      [ChatMessage.mk "user" "u",
        ChatMessage.mk "assistant" (converseOutput cfgOverride envHappy
          (converseRequestOf "arn-x" [ChatMessage.mk "user" "u"]))]
      (converseOutput cfgOverride envHappy (converseRequestOf "arn-x" [ChatMessage.mk "user" "u"]))
      (converseRequestOf "arn-x" [ChatMessage.mk "user" "u"]) rfl⟩

/-- C3: with no override configured, the resolver considers the listed
candidate profiles ordered system-provided-first and lexicographically by name
within each group (the ordered candidates are a permutation of the listing,
pairwise in that order regardless of listing order); it returns the first
candidate in that order whose associated model reference contains the logical
model id as a substring, with no earlier candidate matching; and when no
candidate matches it fails with an error carrying the logical id, the region
and the identity (profile) context. -/
theorem C3_resolver_search (cfg : Config) (env : AwsEnv) (model_id : String)
    (hov : cfg.INFERENCE_PROFILE_ARN = "") :
    (orderedProfiles env).Perm env.listInferenceProfiles ∧
    (orderedProfiles env).Pairwise profileOrderedBefore ∧
    (∀ arn, (resolve_inference_profile_arn cfg env model_id).1 = Except.ok arn →
      ∃ pre p suf, orderedProfiles env = pre ++ p :: suf ∧
        profileMatches env model_id p = true ∧
        arn = (env.getInferenceProfile p.inferenceProfileArn).inferenceProfileArn ∧
        ∀ q ∈ pre, profileMatches env model_id q = false) ∧
    (∀ e, (resolve_inference_profile_arn cfg env model_id).1 = Except.error e →
      (∀ p ∈ orderedProfiles env, profileMatches env model_id p = false) ∧
      substrOf model_id e = true ∧ substrOf cfg.REGION e = true ∧
      substrOf (if cfg.PROFILE = "" then "instance-role" else cfg.PROFILE) e = true) := by
  refine ⟨?_, ?_, ?_, ?_⟩
  · exact List.mergeSort_perm env.listInferenceProfiles profileSortLe
  · exact (List.sorted_mergeSort profileSortLe_trans profileSortLe_total
      env.listInferenceProfiles).imp (fun h => (profileSortLe_iff _ _).mp h)
  · intro arn hok
    have hr := resolve_no_override cfg env model_id hov
    rw [hok] at hr
    cases hs : (searchProfiles env model_id (orderedProfiles env)).1 with
    | none =>
      rw [hs] at hr
      simp at hr
    | some a =>
      rw [hs] at hr
      have ha : a = arn := (Except.ok.inj hr).symm
      subst ha
      exact searchProfiles_some env model_id (orderedProfiles env) a hs
  · intro e herr
    have hr := resolve_no_override cfg env model_id hov
    rw [herr] at hr
    cases hs : (searchProfiles env model_id (orderedProfiles env)).1 with
    | some a =>
      rw [hs] at hr
      simp at hr
    | none =>
      rw [hs] at hr
      have he : e = noProfileMessage cfg model_id := Except.error.inj hr
      subst he
      refine ⟨(searchProfiles_none_iff env model_id (orderedProfiles env)).mp hs, ?_, ?_, ?_⟩
      · unfold noProfileMessage
        apply substrOf_appendRight
        apply substrOf_appendRight
        apply substrOf_appendRight
        apply substrOf_appendRight
        apply substrOf_appendRight
        exact substrOf_suffix _ _
      · unfold noProfileMessage
        apply substrOf_appendRight
        apply substrOf_appendRight
        apply substrOf_appendRight
        exact substrOf_suffix _ _
      · unfold noProfileMessage
        apply substrOf_appendRight
        exact substrOf_suffix _ _

/-- C3 witness: the no-candidate case at a concrete empty listing. -/
theorem C3_resolver_search_witness :
    (orderedProfiles envHappy).Perm envHappy.listInferenceProfiles ∧
    substrOf "claude" (noProfileMessage cfgSearch "claude") = true ∧
    substrOf "us-east-1" (noProfileMessage cfgSearch "claude") = true := by
  have hres : (resolve_inference_profile_arn cfgSearch envHappy "claude").1 =
      Except.error (noProfileMessage cfgSearch "claude") := by
    simp [resolve_inference_profile_arn, orderedProfiles, searchProfiles, envHappy,
      cfgSearch, cfgOverride, List.mergeSort_nil]
  have h := C3_resolver_search cfgSearch envHappy "claude" rfl
  have he := h.2.2.2 (noProfileMessage cfgSearch "claude") hres
  exact ⟨h.1, he.2.1, he.2.2.1⟩
